import Mathlib

/-!
Shallow embedding of `src/app.py` (kim0zz/10mix): a Flask CRUD service over
two entities, Event and Player, backed by a SQLite store through SQLAlchemy.

Modelling choices:
  * The store (`DB`) is a pair of insertion-ordered lists with auto-increment
    id counters, mirroring the two tables with integer primary keys.
  * Form data (`request.form`) is an association list; `Form.get` models
    Python's `dict.get`, returning `none` when the key is absent.
  * `datetime.strptime(s, "%Y-%m-%dT%H:%M:%S")` is modelled by
    `parseMatchTime`, which accepts exactly the fixed literal pattern and
    validates calendar ranges; failure corresponds to the `ValueError` the
    Python call raises.
  * `Team[team]` (enum lookup by member name, raising `KeyError` on a bad
    name) is modelled by `Team.lookup` returning `Option Team`.
  * A handler's outcome is `HResp`: either a structured response with a
    status code and JSON body (`HResp.resp`), or an exception escaping the
    handler uncaught (`HResp.raised`), which Flask turns into a 500.
  * `data.get('mix10', False)` yields either the raw form string or the
    Python boolean `False`; the value assigned to the Boolean column is kept
    as a `PyVal`, and `pyTruthy` gives Python's truthiness of that value
    (the coercion a naive boolean interpretation of the stored value uses).
-/

/-- JSON values, as produced by `jsonify`. -/
inductive JVal where
  | jnull : JVal
  | jbool : Bool → JVal
  | jnum : Int → JVal
  | jstr : String → JVal
  | jarr : List JVal → JVal
  | jobj : List (String × JVal) → JVal

/-- A Python value as assigned to the `mix10` column: either a boolean
(the `False` default of `data.get('mix10', False)`) or the raw form
string. -/
inductive PyVal where
  | bool : Bool → PyVal
  | str : String → PyVal
deriving DecidableEq, Repr

/-- Python truthiness of a `PyVal`: `bool(x)`. A non-empty string is truthy,
so the literal string "false" is truthy. -/
def pyTruthy : PyVal → Bool
  | .bool b => b
  | .str s => s != ""

/-- Exceptions the handlers can raise uncaught. -/
inductive PyExc where
  | typeError : PyExc
  | valueError : PyExc
  | keyError : PyExc
deriving DecidableEq, Repr

/-- The outcome of one handler call: a structured (status, JSON body)
response, or an exception escaping the handler (Flask then produces a
framework-level 500, not a structured 400). -/
inductive HResp where
  | resp : Nat → JVal → HResp
  | raised : PyExc → HResp

/-- `request.form`: an association list of field name to field value. -/
abbrev Form := List (String × String)

/-- `data.get(key)`: first value bound to `key`, or `none` when absent. -/
def Form.get (f : Form) (k : String) : Option String :=
  (List.find? (fun p => p.1 == k) f).map (fun p => p.2)

/-- The `Team` enum of `app.py`: `class Team(Enum): CT = 'CT'; TT = 'TT'`. -/
inductive Team where
  | CT : Team
  | TT : Team
deriving DecidableEq, Repr

/-- `Team[name]`: lookup by member name; `none` models the `KeyError`
raised for any name outside the closed set. -/
def Team.lookup (s : String) : Option Team :=
  if s = "CT" then some .CT else if s = "TT" then some .TT else none

/-- `.value` of a team member, as serialized by the handlers. -/
def Team.toStr : Team → String
  | .CT => "CT"
  | .TT => "TT"

/-- A parsed `match_time` timestamp (no timezone, no fractional seconds). -/
structure DateTime where
  year : Nat
  month : Nat
  day : Nat
  hour : Nat
  minute : Nat
  second : Nat
deriving DecidableEq, Repr

/-- Numeric value of two decimal digit characters. -/
def digits2 (a b : Char) : Option Nat :=
  if a.isDigit && b.isDigit then some ((a.toNat - 48) * 10 + (b.toNat - 48))
  else none

/-- Numeric value of four decimal digit characters. -/
def digits4 (a b c d : Char) : Option Nat :=
  if a.isDigit && b.isDigit && c.isDigit && d.isDigit then
    some ((a.toNat - 48) * 1000 + (b.toNat - 48) * 100 +
          (c.toNat - 48) * 10 + (d.toNat - 48))
  else none

/-- Gregorian leap year. -/
def isLeap (y : Nat) : Bool :=
  (y % 4 == 0 && y % 100 != 0) || y % 400 == 0

/-- Days in a month of a given year. -/
def daysInMonth (y m : Nat) : Nat :=
  if m == 2 then (if isLeap y then 29 else 28)
  else if m == 4 || m == 6 || m == 9 || m == 11 then 30
  else 31

/-- `datetime.strptime(s, "%Y-%m-%dT%H:%M:%S")`: parse the fixed literal
pattern `YYYY-MM-DDTHH:MM:SS` with calendar validation; `none` models the
`ValueError` raised on any string not matching the pattern. -/
def parseMatchTime (s : String) : Option DateTime :=
  match s.data with
  | [y1, y2, y3, y4, '-', m1, m2, '-', d1, d2, 'T',
     h1, h2, ':', n1, n2, ':', s1, s2] =>
    match digits4 y1 y2 y3 y4, digits2 m1 m2, digits2 d1 d2,
          digits2 h1 h2, digits2 n1 n2, digits2 s1 s2 with
    | some y, some mo, some dy, some h, some mi, some se =>
      if 1 ≤ mo && mo ≤ 12 && 1 ≤ dy && dy ≤ daysInMonth y mo &&
         h ≤ 23 && mi ≤ 59 && se ≤ 59 then
        some ⟨y, mo, dy, h, mi, se⟩
      else none
    | _, _, _, _, _, _ => none
  | _ => none

/-- A row of the Event table, holding what the handler assigned:
`name` may be `None` when the field was absent (no presence guard in the
source), `mix10` holds the raw value given to the Boolean column. -/
structure EventRec where
  id : Nat
  name : Option String
  match_time : DateTime
  mix10 : PyVal
deriving DecidableEq, Repr

/-- A row of the Player table. `event_id` holds the raw form value
(`data.get('event_id')`), `none` when the field was absent. -/
structure PlayerRec where
  id : Nat
  name : Option String
  event_id : Option String
  team : Option Team
deriving DecidableEq, Repr

/-- The store: two insertion-ordered tables with auto-increment primary-key
counters (SQLite assigns 1, 2, 3, ... on insert). -/
structure DB where
  events : List EventRec
  players : List PlayerRec
  nextEventId : Nat
  nextPlayerId : Nat
deriving DecidableEq, Repr

/-- A fresh store, as after `db.create_all()`. -/
def emptyDB : DB := ⟨[], [], 1, 1⟩

/-- `Event.query.get(event_id)`: primary-key lookup. -/
def findEvent (db : DB) (i : Nat) : Option EventRec :=
  db.events.find? (fun e => e.id == i)

/-- `Player.query.get(player_id)`: primary-key lookup. -/
def findPlayer (db : DB) (i : Nat) : Option PlayerRec :=
  db.players.find? (fun p => p.id == i)

/-- Serialization of an optional string field under `jsonify`. -/
def optStrJ : Option String → JVal
  | none => .jnull
  | some s => .jstr s

/-- Zero-padded two-digit rendering. -/
def pad2 (n : Nat) : String :=
  if n < 10 then "0" ++ toString n else toString n

/-- Zero-padded four-digit rendering. -/
def pad4 (n : Nat) : String :=
  if n < 10 then "000" ++ toString n
  else if n < 100 then "00" ++ toString n
  else if n < 1000 then "0" ++ toString n
  else toString n

/-- Rendering of a stored timestamp in a response body. -/
def formatDT (dt : DateTime) : String :=
  pad4 dt.year ++ "-" ++ pad2 dt.month ++ "-" ++ pad2 dt.day ++ "T" ++
  pad2 dt.hour ++ ":" ++ pad2 dt.minute ++ ":" ++ pad2 dt.second

/-- `jsonify` of the value stored in the `mix10` column. -/
def pyValJ : PyVal → JVal
  | .bool b => .jbool b
  | .str s => .jstr s

/-- The event dict built by the handlers:
`{'id': .., 'name': .., 'match_time': .., 'mix10': ..}`. -/
def serializeEvent (e : EventRec) : JVal :=
  .jobj [("id", .jnum e.id), ("name", optStrJ e.name),
         ("match_time", .jstr (formatDT e.match_time)),
         ("mix10", pyValJ e.mix10)]

/-- The player dict built by the handlers:
`{'id': .., 'name': .., 'event_id': .., 'team': team.value if team else None}`. -/
def serializePlayer (p : PlayerRec) : JVal :=
  .jobj [("id", .jnum p.id), ("name", optStrJ p.name),
         ("event_id", optStrJ p.event_id),
         ("team", match p.team with
                  | some t => .jstr t.toStr
                  | none => .jnull)]

/-- A one-message JSON body. -/
def msgJ (s : String) : JVal := .jobj [("message", .jstr s)]

/-- The 404 body+status for a missing event. -/
def eventNotFound : HResp := .resp 404 (msgJ "Event not found")

/-- The 404 body+status for a missing player. -/
def playerNotFound : HResp := .resp 404 (msgJ "Player not found")

/-- `data.get('mix10', False)` as assigned to the Boolean column: the raw
form string when present, the Python boolean `False` otherwise. -/
def mix10Val (form : Form) : PyVal :=
  match form.get "mix10" with
  | some v => .str v
  | none => .bool false

/-- `Team[team] if team else None`: `None` and the empty string are falsy,
any other string goes through the enum lookup, whose failure is an
uncaught `KeyError`. -/
def evalTeamField : Option String → Except PyExc (Option Team)
  | none => .ok none
  | some s =>
    if s = "" then .ok none
    else match Team.lookup s with
         | some t => .ok (some t)
         | none => .error .keyError

/-- `GET /api/event` — `get_all_events`. -/
def getAllEvents (db : DB) : HResp × DB :=
  (.resp 200 (.jarr (db.events.map serializeEvent)), db)

/-- `POST /api/event` — `create_event`: reads `name`, parses `match_time`
(a `TypeError` when absent, a `ValueError` when unparseable, both
uncaught), takes `mix10` with default `False`, inserts, commits, 201. -/
def createEvent (db : DB) (form : Form) : HResp × DB :=
  let event_name := form.get "name"
  match form.get "match_time" with
  | none => (.raised .typeError, db)
  | some mts =>
    match parseMatchTime mts with
    | none => (.raised .valueError, db)
    | some mt =>
      let ev : EventRec := ⟨db.nextEventId, event_name, mt, mix10Val form⟩
      (.resp 201 (msgJ "Event added successfully"),
       { db with events := db.events ++ [ev],
                 nextEventId := db.nextEventId + 1 })

/-- `GET /api/event/<id>` — `get_event`. -/
def getEvent (db : DB) (i : Nat) : HResp × DB :=
  match findEvent db i with
  | none => (eventNotFound, db)
  | some e => (.resp 200 (serializeEvent e), db)

/-- `PUT /api/event/<id>` — `update_event`: existence check first, then the
same field handling as create, overwriting all three mutable fields of the
matched row. -/
def updateEvent (db : DB) (i : Nat) (form : Form) : HResp × DB :=
  match findEvent db i with
  | none => (eventNotFound, db)
  | some _ =>
    let new_name := form.get "name"
    match form.get "match_time" with
    | none => (.raised .typeError, db)
    | some mts =>
      match parseMatchTime mts with
      | none => (.raised .valueError, db)
      | some mt =>
        let db' := { db with
          events := db.events.map (fun e =>
            if e.id == i then
              { e with name := new_name, match_time := mt,
                       mix10 := mix10Val form }
            else e) }
        (.resp 200 (msgJ "Event updated successfully"), db')

/-- `DELETE /api/event/<id>` — `delete_event`: existence check, then delete
by primary key; no relation is cascaded, the Player table is untouched. -/
def deleteEvent (db : DB) (i : Nat) : HResp × DB :=
  match findEvent db i with
  | none => (eventNotFound, db)
  | some _ =>
    (.resp 200 (msgJ "Event deleted successfully"),
     { db with events := db.events.filter (fun e => !(e.id == i)) })

/-- `GET /api/player` — `get_all_players`. -/
def getAllPlayers (db : DB) : HResp × DB :=
  (.resp 200 (.jarr (db.players.map serializePlayer)), db)

/-- `GET /api/player/<id>` — `get_player`. -/
def getPlayer (db : DB) (i : Nat) : HResp × DB :=
  match findPlayer db i with
  | none => (playerNotFound, db)
  | some p => (.resp 200 (serializePlayer p), db)

/-- `POST /api/player` — `create_player`: reads `name`, `event_id`, `team`;
`Team[team] if team else None` can raise an uncaught `KeyError`; inserts,
commits, 201. -/
def createPlayer (db : DB) (form : Form) : HResp × DB :=
  let player_name := form.get "name"
  let event_id := form.get "event_id"
  match evalTeamField (form.get "team") with
  | .error e => (.raised e, db)
  | .ok t =>
    let p : PlayerRec := ⟨db.nextPlayerId, player_name, event_id, t⟩
    (.resp 201 (msgJ "Player added successfully"),
     { db with players := db.players ++ [p],
               nextPlayerId := db.nextPlayerId + 1 })

/-- `PUT /api/player/<id>` — `update_player`: existence check first, then
overwrite name, event_id and team of the matched row. -/
def updatePlayer (db : DB) (i : Nat) (form : Form) : HResp × DB :=
  match findPlayer db i with
  | none => (playerNotFound, db)
  | some _ =>
    let new_name := form.get "name"
    let new_event_id := form.get "event_id"
    match evalTeamField (form.get "team") with
    | .error e => (.raised e, db)
    | .ok t =>
      let db' := { db with
        players := db.players.map (fun p =>
          if p.id == i then
            { p with name := new_name, event_id := new_event_id, team := t }
          else p) }
      (.resp 200 (msgJ "Player updated successfully"), db')

/-- `DELETE /api/player/<id>` — `delete_player`. -/
def deletePlayer (db : DB) (i : Nat) : HResp × DB :=
  match findPlayer db i with
  | none => (playerNotFound, db)
  | some _ =>
    (.resp 200 (msgJ "Player deleted successfully"),
     { db with players := db.players.filter (fun p => !(p.id == i)) })

/-- A store with one event (id 1). -/
def dbE : DB := ⟨[⟨1, some "Finals", ⟨2024, 1, 1, 10, 0, 0⟩, .bool false⟩], [], 2, 1⟩

/-- A store with one event (id 1) and one player (id 1) referencing it. -/
def dbP : DB :=
  ⟨[⟨1, some "Finals", ⟨2024, 1, 1, 10, 0, 0⟩, .bool false⟩],
   [⟨1, some "Alice", some "1", some .TT⟩], 2, 2⟩

/-- On a missing event id, `update_event` 404s before touching the form. -/
theorem updateEvent_missing (db : DB) (i : Nat) (f : Form)
    (h : findEvent db i = none) : updateEvent db i f = (eventNotFound, db) := by
  simp [updateEvent, h]

/-- On a missing player id, `update_player` 404s before touching the form. -/
theorem updatePlayer_missing (db : DB) (i : Nat) (f : Form)
    (h : findPlayer db i = none) : updatePlayer db i f = (playerNotFound, db) := by
  simp [updatePlayer, h]

/-- On a missing event id, `get_event` 404s. -/
theorem getEvent_missing (db : DB) (i : Nat)
    (h : findEvent db i = none) : getEvent db i = (eventNotFound, db) := by
  simp [getEvent, h]

/-- On a missing player id, `get_player` 404s. -/
theorem getPlayer_missing (db : DB) (i : Nat)
    (h : findPlayer db i = none) : getPlayer db i = (playerNotFound, db) := by
  simp [getPlayer, h]

/-- On a missing event id, `delete_event` 404s and leaves the store alone. -/
theorem deleteEvent_missing (db : DB) (i : Nat)
    (h : findEvent db i = none) : deleteEvent db i = (eventNotFound, db) := by
  simp [deleteEvent, h]

/-- On a missing player id, `delete_player` 404s and leaves the store alone. -/
theorem deletePlayer_missing (db : DB) (i : Nat)
    (h : findPlayer db i = none) : deletePlayer db i = (playerNotFound, db) := by
  simp [deletePlayer, h]

/-- On an existing event id, `delete_event` deletes that row by primary key. -/
theorem deleteEvent_found (db : DB) (i : Nat) (e : EventRec)
    (h : findEvent db i = some e) :
    deleteEvent db i = (.resp 200 (msgJ "Event deleted successfully"),
      { db with events := db.events.filter (fun x => !(x.id == i)) }) := by
  simp [deleteEvent, h]

/-- On an existing player id, `delete_player` deletes that row by primary key. -/
theorem deletePlayer_found (db : DB) (i : Nat) (p : PlayerRec)
    (h : findPlayer db i = some p) :
    deletePlayer db i = (.resp 200 (msgJ "Player deleted successfully"),
      { db with players := db.players.filter (fun x => !(x.id == i)) }) := by
  simp [deletePlayer, h]

/-- After deleting id `i` from a table, a primary-key lookup of `i` fails. -/
theorem find?_filter_ne_none {α : Type} (l : List α) (f : α → Nat) (i : Nat) :
    List.find? (fun x => f x == i) (l.filter (fun x => !(f x == i))) = none := by
  rw [List.find?_eq_none]
  intro x hx
  have hpx := (List.mem_filter.mp hx).2
  simp only [Bool.not_eq_true'] at hpx
  simp [hpx]

/-- C1: the claim asks that a create-event request with the form field
mix10 = "false" store and return mix10 = false via an explicit truthy-set.
The code has no such coercion: `data.get('mix10', False)` assigns the raw
string "false" to the Boolean column, Python truthiness of that value is
`true` (non-empty string), and the serialized read-back carries the string
"false", never the boolean `false`. This theorem evaluates the code at the
failing input. -/
theorem c1_mix10_false_not_coerced_to_false :
    (createEvent emptyDB
      [("name", "Finals"), ("match_time", "2024-01-01T10:00:00"),
       ("mix10", "false")]).2.events =
      [⟨1, some "Finals", ⟨2024, 1, 1, 10, 0, 0⟩, .str "false"⟩] ∧
    pyTruthy (.str "false") = true ∧
    (getEvent (createEvent emptyDB
      [("name", "Finals"), ("match_time", "2024-01-01T10:00:00"),
       ("mix10", "false")]).2 1).1 =
      .resp 200 (.jobj [("id", .jnum 1), ("name", .jstr "Finals"),
        ("match_time", .jstr "2024-01-01T10:00:00"),
        ("mix10", .jstr "false")]) :=
  ⟨rfl, rfl, rfl⟩

/-- C2: the claim asks for a structured 400 on an unparseable match_time.
The code calls `datetime.strptime` unguarded: on "not-a-date" both
`create_event` and `update_event` raise an uncaught `ValueError` (a
framework-level 500), not a 400 response. This theorem evaluates the code at
the failing input. -/
theorem c2_invalid_timestamp_raises_uncaught :
    createEvent emptyDB [("name", "X"), ("match_time", "not-a-date")] =
      (.raised .valueError, emptyDB) ∧
    updateEvent dbE 1 [("name", "X"), ("match_time", "not-a-date")] =
      (.raised .valueError, dbE) :=
  ⟨rfl, rfl⟩

/-- C3: the claim asks for a 400 (InvalidEnumValue) on a team value outside
the closed set. The code evaluates `Team[team]` unguarded: on team = "XX"
both `create_player` and `update_player` raise an uncaught `KeyError` (a
framework-level 500), not a 400 response. This theorem evaluates the code at
the failing input. -/
theorem c3_bad_team_raises_uncaught :
    createPlayer emptyDB [("name", "A"), ("event_id", "1"), ("team", "XX")] =
      (.raised .keyError, emptyDB) ∧
    updatePlayer dbP 1 [("name", "A"), ("event_id", "1"), ("team", "XX")] =
      (.raised .keyError, dbP) :=
  ⟨rfl, rfl⟩

/-- C4: updating a nonexistent id (event or player) returns the 404
NotFound response and leaves the whole store unchanged: no record is
created and no existing record is modified. -/
theorem c4_update_nonexistent_notfound_no_mutation (db : DB) (i j : Nat)
    (f g : Form) (he : findEvent db i = none) (hp : findPlayer db j = none) :
    updateEvent db i f = (eventNotFound, db) ∧
    updatePlayer db j g = (playerNotFound, db) :=
  ⟨updateEvent_missing db i f he, updatePlayer_missing db j g hp⟩

/-- Witness for C4 at a concrete store and id. -/
theorem c4_witness :
    updateEvent emptyDB 7 [("name", "X"), ("match_time", "2024-01-01T10:00:00")] =
      (eventNotFound, emptyDB) ∧
    updatePlayer emptyDB 7 [("name", "X"), ("event_id", "1")] =
      (playerNotFound, emptyDB) :=
  c4_update_nonexistent_notfound_no_mutation emptyDB 7 7 _ _ rfl rfl

/-- C7: for get, update and delete, existence is checked before any form
field is read or coerced: on a missing id every one of the six handlers
responds 404 with the store unchanged, for arbitrary (possibly absent or
malformed) body fields `f` and `g`. -/
theorem c7_existence_checked_before_coercion (db : DB) (i : Nat) (f g : Form)
    (he : findEvent db i = none) (hp : findPlayer db i = none) :
    updateEvent db i f = (eventNotFound, db) ∧
    updatePlayer db i g = (playerNotFound, db) ∧
    getEvent db i = (eventNotFound, db) ∧
    deleteEvent db i = (eventNotFound, db) ∧
    getPlayer db i = (playerNotFound, db) ∧
    deletePlayer db i = (playerNotFound, db) :=
  ⟨updateEvent_missing db i f he, updatePlayer_missing db i g hp,
   getEvent_missing db i he, deleteEvent_missing db i he,
   getPlayer_missing db i hp, deletePlayer_missing db i hp⟩

/-- Witness for C7: an update of a nonexistent id with an unparseable
match_time and an invalid team yields 404, not a coercion error. -/
theorem c7_witness :
    updateEvent dbP 42 [("name", "X"), ("match_time", "not-a-date")] =
      (eventNotFound, dbP) ∧
    updatePlayer dbP 42 [("name", "X"), ("event_id", "1"), ("team", "XX")] =
      (playerNotFound, dbP) ∧
    getEvent dbP 42 = (eventNotFound, dbP) ∧
    deleteEvent dbP 42 = (eventNotFound, dbP) ∧
    getPlayer dbP 42 = (playerNotFound, dbP) ∧
    deletePlayer dbP 42 = (playerNotFound, dbP) :=
  c7_existence_checked_before_coercion dbP 42 _ _ rfl rfl

/-- C6: deleting a nonexistent id (event or player) returns 404 with the
store unchanged; deleting an existing id responds 200 and removes the row,
so a subsequent get of that id returns 404. -/
theorem c6_delete_semantics (db : DB) (i : Nat) :
    (findEvent db i = none → deleteEvent db i = (eventNotFound, db)) ∧
    (∀ e, findEvent db i = some e →
      (deleteEvent db i).1 = .resp 200 (msgJ "Event deleted successfully") ∧
      getEvent (deleteEvent db i).2 i = (eventNotFound, (deleteEvent db i).2)) ∧
    (findPlayer db i = none → deletePlayer db i = (playerNotFound, db)) ∧
    (∀ p, findPlayer db i = some p →
      (deletePlayer db i).1 = .resp 200 (msgJ "Player deleted successfully") ∧
      getPlayer (deletePlayer db i).2 i = (playerNotFound, (deletePlayer db i).2)) := by
  refine ⟨deleteEvent_missing db i, ?_, deletePlayer_missing db i, ?_⟩
  · intro e he
    rw [deleteEvent_found db i e he]
    refine ⟨rfl, ?_⟩
    apply getEvent_missing
    unfold findEvent
    exact find?_filter_ne_none db.events (fun x => x.id) i
  · intro p hp
    rw [deletePlayer_found db i p hp]
    refine ⟨rfl, ?_⟩
    apply getPlayer_missing
    unfold findPlayer
    exact find?_filter_ne_none db.players (fun x => x.id) i

/-- Witness for C6 on a store with event 1 and player 1: deleting id 9
404s unchanged, deleting id 1 succeeds and a following get of id 1 404s. -/
theorem c6_witness :
    ((deleteEvent dbP 1).1 = .resp 200 (msgJ "Event deleted successfully") ∧
     getEvent (deleteEvent dbP 1).2 1 = (eventNotFound, (deleteEvent dbP 1).2)) ∧
    deleteEvent dbP 9 = (eventNotFound, dbP) ∧
    ((deletePlayer dbP 1).1 = .resp 200 (msgJ "Player deleted successfully") ∧
     getPlayer (deletePlayer dbP 1).2 1 = (playerNotFound, (deletePlayer dbP 1).2)) ∧
    deletePlayer dbP 9 = (playerNotFound, dbP) :=
  ⟨(c6_delete_semantics dbP 1).2.1 _ rfl,
   (c6_delete_semantics dbP 9).1 rfl,
   (c6_delete_semantics dbP 1).2.2.2 _ rfl,
   (c6_delete_semantics dbP 9).2.2.1 rfl⟩

/-- C8: the list handlers respond 200 with every stored record of the
requested kind serialized in table (insertion/id) order, without touching
the store; and each successful create appends its new row at the end, so
table order is insertion order. -/
theorem c8_list_returns_all_in_insertion_order (db : DB) (f g : Form) :
    getAllEvents db = (.resp 200 (.jarr (db.events.map serializeEvent)), db) ∧
    getAllPlayers db = (.resp 200 (.jarr (db.players.map serializePlayer)), db) ∧
    ((createEvent db f).2.events = db.events ∨
      ∃ e, (createEvent db f).2.events = db.events ++ [e]) ∧
    ((createPlayer db g).2.players = db.players ∨
      ∃ p, (createPlayer db g).2.players = db.players ++ [p]) := by
  refine ⟨rfl, rfl, ?_, ?_⟩
  · rcases hm : Form.get f "match_time" with _ | mts
    · left
      simp [createEvent, hm]
    · rcases hq : parseMatchTime mts with _ | mt
      · left
        simp [createEvent, hm, hq]
      · right
        exact ⟨⟨db.nextEventId, Form.get f "name", mt, mix10Val f⟩,
               by simp [createEvent, hm, hq]⟩
  · rcases ht : evalTeamField (Form.get g "team") with e | t
    · left
      simp [createPlayer, ht]
    · right
      exact ⟨⟨db.nextPlayerId, Form.get g "name", Form.get g "event_id", t⟩,
             by simp [createPlayer, ht]⟩

/-- C9: deleting an existing event succeeds and deletes or modifies no
player row: the Player table (and its id counter) is untouched, so players
whose event_id references the deleted event remain, unchanged (no
cascade). -/
theorem c9_delete_event_preserves_players (db : DB) (i : Nat) (e : EventRec)
    (h : findEvent db i = some e) :
    (deleteEvent db i).1 = .resp 200 (msgJ "Event deleted successfully") ∧
    (deleteEvent db i).2.players = db.players ∧
    (deleteEvent db i).2.nextPlayerId = db.nextPlayerId := by
  rw [deleteEvent_found db i e h]
  exact ⟨rfl, rfl, rfl⟩

/-- Witness for C9: deleting event 1 leaves the player referencing
event_id "1" in the store, orphaned but unchanged. -/
theorem c9_witness :
    ((deleteEvent dbP 1).1 = .resp 200 (msgJ "Event deleted successfully") ∧
     (deleteEvent dbP 1).2.players = dbP.players ∧
     (deleteEvent dbP 1).2.nextPlayerId = dbP.nextPlayerId) ∧
    (deleteEvent dbP 1).2.players = [⟨1, some "Alice", some "1", some .TT⟩] :=
  ⟨c9_delete_event_preserves_players dbP 1 _ rfl, rfl⟩

/-- C10: a team form field present but equal to "" is falsy in
`Team[team] if team else None`, so the request behaves exactly as if team
were omitted: create succeeds with 201 and update with 200, the stored team
is null, and it serializes as null. -/
theorem c10_empty_team_treated_as_null (db : DB) (nm eid : String) (j : Nat)
    (p : PlayerRec) (hp : findPlayer db j = some p) :
    createPlayer db [("name", nm), ("event_id", eid), ("team", "")] =
      createPlayer db [("name", nm), ("event_id", eid)] ∧
    (createPlayer db [("name", nm), ("event_id", eid), ("team", "")]).1 =
      .resp 201 (msgJ "Player added successfully") ∧
    (createPlayer db [("name", nm), ("event_id", eid), ("team", "")]).2.players =
      db.players ++ [⟨db.nextPlayerId, some nm, some eid, none⟩] ∧
    serializePlayer ⟨db.nextPlayerId, some nm, some eid, none⟩ =
      .jobj [("id", .jnum db.nextPlayerId), ("name", .jstr nm),
             ("event_id", .jstr eid), ("team", .jnull)] ∧
    updatePlayer db j [("name", nm), ("event_id", eid), ("team", "")] =
      updatePlayer db j [("name", nm), ("event_id", eid)] ∧
    (updatePlayer db j [("name", nm), ("event_id", eid), ("team", "")]).1 =
      .resp 200 (msgJ "Player updated successfully") ∧
    (updatePlayer db j [("name", nm), ("event_id", eid), ("team", "")]).2.players =
      db.players.map (fun q => if q.id == j then
        { q with name := some nm, event_id := some eid, team := none } else q) := by
  refine ⟨rfl, rfl, rfl, rfl, ?_, ?_, ?_⟩ <;>
    (unfold updatePlayer; rw [hp]; rfl)

/-- Witness for C10 on a store holding player 1. -/
theorem c10_witness :
    createPlayer dbP [("name", "Bob"), ("event_id", "1"), ("team", "")] =
      createPlayer dbP [("name", "Bob"), ("event_id", "1")] ∧
    (createPlayer dbP [("name", "Bob"), ("event_id", "1"), ("team", "")]).2.players =
      dbP.players ++ [⟨2, some "Bob", some "1", none⟩] ∧
    updatePlayer dbP 1 [("name", "Bob"), ("event_id", "1"), ("team", "")] =
      updatePlayer dbP 1 [("name", "Bob"), ("event_id", "1")] :=
  ⟨(c10_empty_team_treated_as_null dbP "Bob" "1" 1 _ rfl).1,
   (c10_empty_team_treated_as_null dbP "Bob" "1" 1 _ rfl).2.2.1,
   (c10_empty_team_treated_as_null dbP "Bob" "1" 1 _ rfl).2.2.2.2.1⟩
